import Mathlib

/-!
Verification of the Reading Journal entry model, data service, storage
service and export formatter.

The definitions below are a shallow embedding of the JavaScript sources:

* `Entry` and its methods embed the `Entry` class of
  `Recently read/config/appConfig.js` (constructor, `create`, `update`,
  `addTakeaway`, `removeTakeaway`, `addRelatedLink`, `removeRelatedLink`,
  `addTag`, `removeTag`, `setRating`, `validate`, `toObject`).
* `DataService.updateEntry` embeds `DataService.updateEntry` of
  `backend/services/DataService.js`, with persistence and observer
  notification made explicit in the returned outcome.
* `StorageService.getEntries` / `restoreFromBackup` embed the storage
  service, with the browser key-value store modelled as a `Store` record
  and JSON strings modelled by `StoredVal` (a stored string is either a
  well-formed JSON encoding of a value that flows through the system, or
  a corrupt string that `JSON.parse` rejects).
* `buildExportJSON` embeds the export-document construction of
  `ExportService.exportAsJSON` (the pure part, before the download).

JavaScript truthiness of the `x || y` defaulting idiom is translated
explicitly: a string is falsy exactly when empty, a number exactly when
zero, `null`/`undefined` (modelled by `Option.none`) always.
Wall-clock reads (`Date.now()`, `new Date().toISOString()`) are passed
as explicit parameters.
-/

/-- Embeds JavaScript `String.prototype.toLowerCase` (ASCII range, which is
all the tag logic relies on): lower-case every character of the string. -/
def jsToLower (s : String) : String := String.mk (s.data.map Char.toLower)

/-- Embeds JavaScript `String.prototype.trim`: drop leading and trailing
whitespace. -/
def jsTrim (s : String) : String :=
  String.mk (((s.data.dropWhile Char.isWhitespace).reverse.dropWhile Char.isWhitespace).reverse)

/-- Models `new Date(timestamp).toLocaleDateString('en-US', ...)` from
`Entry.formatDate`: an abstract deterministic rendering of the timestamp.
Its exact text is irrelevant to every property below; what matters is that
it is a function of the timestamp and is never the empty string. -/
def formatDate (timestamp : String) : String := "formatted:" ++ timestamp

/-- One key takeaway: `{ id, text, createdAt }` as pushed by
`Entry.addTakeaway`. -/
structure Takeaway where
  id : Nat
  text : String
  createdAt : String
deriving DecidableEq, Repr

/-- One related link: `{ id, url, title, createdAt }` as pushed by
`Entry.addRelatedLink`. -/
structure RelatedLink where
  id : Nat
  url : String
  title : String
  createdAt : String
deriving DecidableEq, Repr

/-- The plain key-value representation of an entry produced by
`Entry.toObject` and consumed by the `Entry` constructor: all fifteen
persisted fields. -/
structure EntryObj where
  id : Nat
  sourceType : String
  sourceName : String
  author : String
  reflection : String
  timestamp : String
  lastEdited : Option String
  dateFormatted : String
  editCount : Int
  additionalNotes : String
  keyTakeaways : List Takeaway
  relatedLinks : List RelatedLink
  tags : List String
  rating : Option Int
  progress : String
deriving DecidableEq, Repr

/-- An `Entry` instance (the class of `appConfig.js`): same fifteen
fields as its plain-object representation. -/
structure Entry where
  id : Nat
  sourceType : String
  sourceName : String
  author : String
  reflection : String
  timestamp : String
  lastEdited : Option String
  dateFormatted : String
  editCount : Int
  additionalNotes : String
  keyTakeaways : List Takeaway
  relatedLinks : List RelatedLink
  tags : List String
  rating : Option Int
  progress : String
deriving DecidableEq, Repr

/-- The `Entry` constructor, `new Entry(data)`, applied to a full plain
object (as produced by `toObject` or read back from storage).
`nowMs` stands for `Date.now()` and `nowIso` for
`new Date().toISOString()`, the fallbacks used for falsy `id` /
`timestamp`.  Each `data.f || default` is translated by its JavaScript
truthiness: `id` falls back when `0`, `timestamp` and `dateFormatted`
when empty, `lastEdited` becomes `null` when null or empty, `rating`
becomes `null` when null or `0`; `author || two-sided-empty`,
`editCount || 0`, `additionalNotes/progress || two-sided-empty` and the
three array fields (`[]` is truthy in JavaScript) are identities at
these types. -/
def entryFromData (data : EntryObj) (nowMs : Nat) (nowIso : String) : Entry :=
  let ts := if data.timestamp ≠ "" then data.timestamp else nowIso
  { id := if data.id ≠ 0 then data.id else nowMs
    sourceType := data.sourceType
    sourceName := data.sourceName
    author := data.author
    reflection := data.reflection
    timestamp := ts
    lastEdited := match data.lastEdited with
      | some s => if s ≠ "" then some s else none
      | none => none
    dateFormatted := if data.dateFormatted ≠ "" then data.dateFormatted else formatDate ts
    editCount := data.editCount
    additionalNotes := data.additionalNotes
    keyTakeaways := data.keyTakeaways
    relatedLinks := data.relatedLinks
    tags := data.tags
    rating := match data.rating with
      | some r => if r ≠ 0 then some r else none
      | none => none
    progress := data.progress }

/-- The metadata object assembled by the UI form reader
(`getFormDataByMediaType`): per-media-type extra fields. -/
structure FormMetadata where
  isbn : String := ""
  publisher : String := ""
  url : String := ""
  publication : String := ""
  journal : String := ""
  doi : String := ""
deriving DecidableEq, Repr

/-- The form-data object handed to `Entry.create` / `DataService`:
the four entry fields plus the `metadata` object the UI always attaches
(`formData.metadata = metadata`). -/
structure FormData where
  sourceType : String
  sourceName : String
  author : String
  reflection : String
  metadata : Option FormMetadata := none
deriving DecidableEq, Repr

/-- `Entry.create(formData)`: calls the constructor with an object holding
only `sourceType`, `sourceName`, `author`, `reflection`; every other field
of the constructor therefore takes its absent-input default (`id := Date.now()`,
`timestamp := now`, `lastEdited := null`, `editCount := 0`, empty strings
and arrays, `rating := null`). -/
def Entry.create (fd : FormData) (nowMs : Nat) (nowIso : String) : Entry :=
  { id := nowMs
    sourceType := fd.sourceType
    sourceName := fd.sourceName
    author := fd.author
    reflection := fd.reflection
    timestamp := nowIso
    lastEdited := none
    dateFormatted := formatDate nowIso
    editCount := 0
    additionalNotes := ""
    keyTakeaways := []
    relatedLinks := []
    tags := []
    rating := none
    progress := "" }

/-- The argument of `Entry.update(updates)`: a partial object.  `none`
means the key is absent.  `id` and `timestamp` keys can be supplied but
are skipped by the method's guard; a `metadata` key (which the UI's
`handleSubmit` always supplies) is skipped because `metadata` is not an
own property of `Entry`. -/
structure Updates where
  id : Option Nat := none
  sourceType : Option String := none
  sourceName : Option String := none
  author : Option String := none
  reflection : Option String := none
  timestamp : Option String := none
  lastEdited : Option (Option String) := none
  dateFormatted : Option String := none
  editCount : Option Int := none
  additionalNotes : Option String := none
  keyTakeaways : Option (List Takeaway) := none
  relatedLinks : Option (List RelatedLink) := none
  tags : Option (List String) := none
  rating : Option (Option Int) := none
  progress : Option String := none
  metadata : Option FormMetadata := none
deriving DecidableEq, Repr

/-- `Entry.update(updates)`: copy every supplied key that is an own
property other than `id`/`timestamp`, then set
`lastEdited := new Date().toISOString()`, `editCount += 1`, and
`dateFormatted := this.formatDate()` (recomputed from the unchanged
timestamp). -/
def Entry.update (e : Entry) (u : Updates) (now : String) : Entry :=
  let e1 : Entry :=
    { e with
      sourceType := u.sourceType.getD e.sourceType
      sourceName := u.sourceName.getD e.sourceName
      author := u.author.getD e.author
      reflection := u.reflection.getD e.reflection
      lastEdited := u.lastEdited.getD e.lastEdited
      dateFormatted := u.dateFormatted.getD e.dateFormatted
      editCount := u.editCount.getD e.editCount
      additionalNotes := u.additionalNotes.getD e.additionalNotes
      keyTakeaways := u.keyTakeaways.getD e.keyTakeaways
      relatedLinks := u.relatedLinks.getD e.relatedLinks
      tags := u.tags.getD e.tags
      rating := u.rating.getD e.rating
      progress := u.progress.getD e.progress }
  { e1 with
    lastEdited := some now
    editCount := e1.editCount + 1
    dateFormatted := formatDate e.timestamp }

/-- `Entry.addTakeaway(takeaway)`: guarded by
`takeaway && takeaway.trim()`; pushes `{ id: Date.now(), text: trimmed,
createdAt: now }` and touches `lastEdited`.  `idGen` stands for
`Date.now()`. -/
def Entry.addTakeaway (e : Entry) (takeaway : String) (idGen : Nat) (now : String) : Entry :=
  if jsTrim takeaway ≠ "" then
    { e with
      keyTakeaways := e.keyTakeaways ++ [⟨idGen, jsTrim takeaway, now⟩]
      lastEdited := some now }
  else e

/-- `Entry.removeTakeaway(takeawayId)`: filters out takeaways with that
id and touches `lastEdited` (even when nothing matched). -/
def Entry.removeTakeaway (e : Entry) (takeawayId : Nat) (now : String) : Entry :=
  { e with
    keyTakeaways := e.keyTakeaways.filter (fun t => t.id != takeawayId)
    lastEdited := some now }

/-- `Entry.addRelatedLink(url, title)`: guarded by `url && url.trim()`;
title defaults to the url when blank (`title.trim() || url.trim()`). -/
def Entry.addRelatedLink (e : Entry) (url title : String) (idGen : Nat) (now : String) : Entry :=
  if jsTrim url ≠ "" then
    { e with
      relatedLinks := e.relatedLinks ++
        [⟨idGen, jsTrim url, if jsTrim title ≠ "" then jsTrim title else jsTrim url, now⟩]
      lastEdited := some now }
  else e

/-- `Entry.removeRelatedLink(linkId)`: filters out links with that id and
touches `lastEdited`. -/
def Entry.removeRelatedLink (e : Entry) (linkId : Nat) (now : String) : Entry :=
  { e with
    relatedLinks := e.relatedLinks.filter (fun l => l.id != linkId)
    lastEdited := some now }

/-- `Entry.addTag(tag)`: guarded by `tag && tag.trim() &&
!this.tags.includes(tag.trim().toLowerCase())`; pushes the lower-cased
trimmed tag and touches `lastEdited`. -/
def Entry.addTag (e : Entry) (tag : String) (now : String) : Entry :=
  if jsTrim tag ≠ "" ∧ jsToLower (jsTrim tag) ∉ e.tags then
    { e with
      tags := e.tags ++ [jsToLower (jsTrim tag)]
      lastEdited := some now }
  else e

/-- `Entry.removeTag(tag)`: filters out tags strictly equal to `tag` and
touches `lastEdited` (even when nothing matched). -/
def Entry.removeTag (e : Entry) (tag : String) (now : String) : Entry :=
  { e with
    tags := e.tags.filter (fun t => t != tag)
    lastEdited := some now }

/-- `Entry.setRating(rating)`: only when `rating >= 1 && rating <= 5`
assigns the rating and touches `lastEdited`; otherwise does nothing. -/
def Entry.setRating (e : Entry) (rating : Int) (now : String) : Entry :=
  if 1 ≤ rating ∧ rating ≤ 5 then
    { e with rating := some rating, lastEdited := some now }
  else e

/-- Result of `Entry.validate()`: `{ isValid, errors }`. -/
structure ValidationResult where
  isValid : Bool
  errors : List String
deriving DecidableEq, Repr

/-- `Entry.validate()`: an error per required field that is missing or
blank after trimming (`!field || field.trim() === ''`, which for a string
collapses to blank-after-trim). -/
def Entry.validate (e : Entry) : ValidationResult :=
  let errors :=
    (if jsTrim e.sourceType = "" then ["Source type is required"] else []) ++
    (if jsTrim e.sourceName = "" then ["Source name is required"] else []) ++
    (if jsTrim e.reflection = "" then ["Reflection is required"] else [])
  { isValid := errors.isEmpty, errors := errors }

/-- `Entry.toObject()`: the plain object with all fifteen fields,
verbatim. -/
def Entry.toObject (e : Entry) : EntryObj :=
  { id := e.id
    sourceType := e.sourceType
    sourceName := e.sourceName
    author := e.author
    reflection := e.reflection
    timestamp := e.timestamp
    lastEdited := e.lastEdited
    dateFormatted := e.dateFormatted
    editCount := e.editCount
    additionalNotes := e.additionalNotes
    keyTakeaways := e.keyTakeaways
    relatedLinks := e.relatedLinks
    tags := e.tags
    rating := e.rating
    progress := e.progress }

/-- One call to a mutating `Entry` method, with its wall-clock inputs,
used to reason about arbitrary operation sequences. -/
inductive EOp where
  | update (u : Updates) (now : String)
  | addTakeaway (s : String) (idGen : Nat) (now : String)
  | removeTakeaway (i : Nat) (now : String)
  | addRelatedLink (url title : String) (idGen : Nat) (now : String)
  | removeRelatedLink (i : Nat) (now : String)
  | addTag (t : String) (now : String)
  | removeTag (t : String) (now : String)
  | setRating (r : Int) (now : String)
deriving DecidableEq, Repr

/-- Dispatch one operation to the corresponding `Entry` method. -/
def Entry.applyOp (e : Entry) (op : EOp) : Entry :=
  match op with
  | .update u now => e.update u now
  | .addTakeaway s idGen now => e.addTakeaway s idGen now
  | .removeTakeaway i now => e.removeTakeaway i now
  | .addRelatedLink url title idGen now => e.addRelatedLink url title idGen now
  | .removeRelatedLink i now => e.removeRelatedLink i now
  | .addTag t now => e.addTag t now
  | .removeTag t now => e.removeTag t now
  | .setRating r now => e.setRating r now

/-- The rating invariant of the data model: `rating`, if present, is an
integer within [1,5]. -/
def ratingOk (e : Entry) : Bool :=
  match e.rating with
  | none => true
  | some r => decide (1 ≤ r ∧ r ≤ 5)

/-- An operation that never writes an out-of-range rating: any operation
other than an `update` whose partial object carries a `rating` key
(`setRating` checks its range itself). -/
def ratingSafe (op : EOp) : Bool :=
  match op with
  | .update u _ => decide (u.rating = none)
  | _ => true

/-- Outcome of `DataService.updateEntry`: the returned result object
(`success`/`error`), the data service's in-memory entries after the call,
whether `saveEntries` (persistence) ran, and the events handed to
`notifyObservers`. -/
structure UpdateOutcome where
  success : Bool
  error : Option String
  entries : List Entry
  persisted : Bool
  events : List String
deriving DecidableEq, Repr

/-- Replace the first entry with the given id (the object
`this.entries.find(...)` aliases, which `entry.update` mutates in
place), leaving the rest of the sequence untouched. -/
def updateFirst (l : List Entry) (id : Nat) (f : Entry → Entry) : List Entry :=
  match l with
  | [] => []
  | x :: xs => if x.id = id then f x :: xs else x :: updateFirst xs id f

/-- `DataService.updateEntry(id, updates)`: find the entry; if absent,
return the not-found failure with nothing changed; otherwise mutate the
found entry in place, re-validate it, and only on success persist and
notify `entry_updated`.  On validation failure the mutation is left in
the in-memory sequence (no rollback). -/
def DataService.updateEntry (entries : List Entry) (id : Nat) (u : Updates)
    (now : String) : UpdateOutcome :=
  match entries.find? (fun e => e.id == id) with
  | none =>
      { success := false, error := some "Entry not found", entries := entries
        persisted := false, events := [] }
  | some e =>
      let e1 := e.update u now
      let entries1 := updateFirst entries id (fun x => x.update u now)
      let v := e1.validate
      if v.isValid then
        { success := true, error := none, entries := entries1
          persisted := true, events := ["entry_updated"] }
      else
        { success := false, error := some (String.intercalate ", " v.errors)
          entries := entries1, persisted := false, events := [] }

/-- A string held in one slot of the browser key-value store, as seen by
`JSON.parse`: either the well-formed JSON encoding of a value that flows
through the storage service (an array of entry objects, or the backup
wrapper `{ data: <string>, timestamp }` whose `data` member is itself a
stored string), or a corrupt string that `JSON.parse` rejects.
`corrupt ""` stands for the empty string (falsy in JavaScript and not
valid JSON). -/
inductive StoredVal where
  | arr (es : List EntryObj)
  | backupObj (data : StoredVal) (timestamp : String)
  | corrupt (raw : String)
deriving DecidableEq, Repr

/-- `JSON.parse` on a stored string: succeeds with the encoded value
exactly when the string is well-formed JSON, throws (here: `none`)
on a corrupt string. -/
def tryParse (v : StoredVal) : Option StoredVal :=
  match v with
  | .corrupt _ => none
  | v => some v

/-- JavaScript truthiness of the stored string: only the empty string is
falsy; every well-formed JSON encoding is nonempty. -/
def storedTruthy (v : StoredVal) : Bool :=
  match v with
  | .corrupt raw => raw != ""
  | _ => true

/-- The browser key-value store as the storage service sees it:
availability (the result of the `isStorageAvailable` write-then-delete
probe) and the contents of the primary and backup slots (`none` when the
key is absent). -/
structure Store where
  available : Bool
  primary : Option StoredVal
  backup : Option StoredVal
deriving DecidableEq, Repr

/-- `StorageService.restoreFromBackup()`: parse the backup slot, then
parse the string held in its `data` member; any absent key, falsy
string, parse failure or missing `data` member (parsing `undefined`
throws) falls through to the empty array. -/
def StorageService.restoreFromBackup (st : Store) : StoredVal :=
  if !st.available then .arr []
  else
    match st.backup with
    | some bs =>
        if storedTruthy bs then
          match tryParse bs with
          | some (.backupObj data _) =>
              match tryParse data with
              | some entries => entries
              | none => .arr []
          | some _ => .arr []
          | none => .arr []
        else .arr []
    | none => .arr []

/-- `StorageService.getEntries()`: empty when the store is unavailable;
`data ? JSON.parse(data) : []` on the primary slot, where a parse
exception is caught and answered by `restoreFromBackup()`. -/
def StorageService.getEntries (st : Store) : StoredVal :=
  if !st.available then .arr []
  else
    match st.primary with
    | none => .arr []
    | some v =>
        if storedTruthy v then
          match tryParse v with
          | some parsed => parsed
          | none => StorageService.restoreFromBackup st
        else .arr []

/-- The `metadata` block of the JSON export document. -/
structure ExportMetadata where
  exportDate : String
  version : String
  totalEntries : Nat
  appName : String
deriving DecidableEq, Repr

/-- The JSON export document `{ metadata, entries }`. -/
structure ExportDoc where
  metadata : ExportMetadata
  entries : List EntryObj
deriving DecidableEq, Repr

/-- The export-document construction inside `ExportService.exportAsJSON`
(everything before `JSON.stringify` and the download): wraps the entry
collection with metadata whose `exportDate` is the invocation time. -/
def buildExportJSON (entries : List Entry) (nowIso : String) : ExportDoc :=
  { metadata :=
      { exportDate := nowIso
        version := "1.0.0"
        totalEntries := entries.length
        appName := "Reading Journal" }
    entries := entries.map Entry.toObject }

/-! ## Helper lemmas and concrete sample values -/

/-- A well-formed form input (the scenario entry of the spec). -/
def sampleForm : FormData :=
  { sourceType := "Book", sourceName := "Deep Work", author := "Cal Newport"
    reflection := "Great book about focus.", metadata := none }

/-- A freshly created entry. -/
def sampleEntry : Entry := Entry.create sampleForm 1000 "2024-01-01T00:00:00.000Z"

theorem ofNat_lower_fixed (n : Nat) (h1 : 97 ≤ n) (h2 : n ≤ 122) :
    Char.toLower (Char.ofNat n) = Char.ofNat n := by
  interval_cases n <;> decide

theorem charToLower_idem (c : Char) : c.toLower.toLower = c.toLower := by
  by_cases h : 65 ≤ c.toNat ∧ c.toNat ≤ 90
  · have h1 : c.toLower = Char.ofNat (c.toNat + 32) := by
      unfold Char.toLower
      rw [if_pos]
      simp only [ge_iff_le, Bool.and_eq_true, decide_eq_true_eq]
      exact ⟨h.1, h.2⟩
    rw [h1, ofNat_lower_fixed (c.toNat + 32) (by omega) (by omega)]
  · have h1 : c.toLower = c := by
      unfold Char.toLower
      rw [if_neg]
      simp only [ge_iff_le, Bool.and_eq_true, decide_eq_true_eq]
      exact h
    rw [h1]
    exact h1

theorem jsToLower_idem (s : String) : jsToLower (jsToLower s) = jsToLower s := by
  simp only [jsToLower, List.map_map]
  congr 1
  apply List.map_congr_left
  intro c _
  exact charToLower_idem c

theorem ratingOk_eqRating (e e2 : Entry) (h : e.rating = e2.rating) :
    ratingOk e = ratingOk e2 := by
  unfold ratingOk
  rw [h]

theorem ratingOk_applyOp (e : Entry) (op : EOp)
    (h0 : ratingOk e = true) (hs : ratingSafe op = true) : ratingOk (e.applyOp op) = true := by
  cases op with
  | update u now =>
      simp only [ratingSafe, decide_eq_true_eq] at hs
      simp only [Entry.applyOp]
      rw [ratingOk_eqRating (e.update u now) e]
      · exact h0
      · simp [Entry.update, hs]
  | setRating r now =>
      simp only [Entry.applyOp, Entry.setRating]
      split
      · rename_i hrange
        simp [ratingOk, hrange.1, hrange.2]
      · exact h0
  | addTakeaway s idGen now =>
      simp only [Entry.applyOp, Entry.addTakeaway]
      split
      · rw [ratingOk_eqRating _ e] <;> simp [h0]
      · exact h0
  | removeTakeaway i now =>
      simp only [Entry.applyOp]
      rw [ratingOk_eqRating _ e] <;> simp [Entry.removeTakeaway, h0]
  | addRelatedLink url title idGen now =>
      simp only [Entry.applyOp, Entry.addRelatedLink]
      split
      · rw [ratingOk_eqRating _ e] <;> simp [h0]
      · exact h0
  | removeRelatedLink i now =>
      simp only [Entry.applyOp]
      rw [ratingOk_eqRating _ e] <;> simp [Entry.removeRelatedLink, h0]
  | addTag t now =>
      simp only [Entry.applyOp, Entry.addTag]
      split
      · rw [ratingOk_eqRating _ e] <;> simp [h0]
      · exact h0
  | removeTag t now =>
      simp only [Entry.applyOp]
      rw [ratingOk_eqRating _ e] <;> simp [Entry.removeTag, h0]

theorem tagsInv_addTag (e : Entry) (t now : String)
    (hlow : ∀ x ∈ e.tags, jsToLower x = x) (hnd : e.tags.Nodup) :
    (∀ x ∈ (e.addTag t now).tags, jsToLower x = x) ∧ (e.addTag t now).tags.Nodup := by
  unfold Entry.addTag
  split
  · rename_i h
    constructor
    · intro x hx
      simp only [List.mem_append, List.mem_singleton] at hx
      cases hx with
      | inl hmem => exact hlow x hmem
      | inr heq => rw [heq]; exact jsToLower_idem (jsTrim t)
    · simp only [List.nodup_append, List.nodup_cons, List.not_mem_nil, not_false_iff,
        List.nodup_nil, and_true, List.disjoint_singleton]
      exact ⟨hnd, trivial, h.2⟩
  · exact ⟨hlow, hnd⟩

theorem tagsInv_foldl (e : Entry) (calls : List (String × String))
    (hlow : ∀ x ∈ e.tags, jsToLower x = x) (hnd : e.tags.Nodup) :
    (∀ x ∈ (calls.foldl (fun acc p => acc.addTag p.1 p.2) e).tags, jsToLower x = x) ∧
    (calls.foldl (fun acc p => acc.addTag p.1 p.2) e).tags.Nodup := by
  induction calls generalizing e with
  | nil => exact ⟨hlow, hnd⟩
  | cons p rest ih =>
      simp only [List.foldl_cons]
      have step := tagsInv_addTag e p.1 p.2 hlow hnd
      exact ih (e.addTag p.1 p.2) step.1 step.2

/-! ## Claims -/

/-- C1 (amended): every successful mutating `Entry` operation sets
`lastEdited` to the current time; `update` additionally increments
`editCount` by exactly 1 (when the partial object does not itself carry
an `editCount` key), while the other seven operations leave `editCount`
unchanged — there is no shared eight-way increment protocol. -/
theorem c1_single_mutation_protocol (e : Entry) (u : Updates)
    (s url title tag : String) (r : Int) (i j idGen : Nat) (now : String)
    (hec : u.editCount = none)
    (hs : jsTrim s ≠ "")
    (hurl : jsTrim url ≠ "")
    (htag : jsTrim tag ≠ "" ∧ jsToLower (jsTrim tag) ∉ e.tags)
    (hr : 1 ≤ r ∧ r ≤ 5) :
    ((e.update u now).lastEdited = some now ∧ (e.update u now).editCount = e.editCount + 1) ∧
    ((e.addTakeaway s idGen now).lastEdited = some now ∧
      (e.addTakeaway s idGen now).editCount = e.editCount) ∧
    ((e.removeTakeaway i now).lastEdited = some now ∧
      (e.removeTakeaway i now).editCount = e.editCount) ∧
    ((e.addRelatedLink url title idGen now).lastEdited = some now ∧
      (e.addRelatedLink url title idGen now).editCount = e.editCount) ∧
    ((e.removeRelatedLink j now).lastEdited = some now ∧
      (e.removeRelatedLink j now).editCount = e.editCount) ∧
    ((e.addTag tag now).lastEdited = some now ∧ (e.addTag tag now).editCount = e.editCount) ∧
    ((e.removeTag tag now).lastEdited = some now ∧
      (e.removeTag tag now).editCount = e.editCount) ∧
    ((e.setRating r now).lastEdited = some now ∧
      (e.setRating r now).editCount = e.editCount) := by
  simp [Entry.update, Entry.addTakeaway, Entry.removeTakeaway, Entry.addRelatedLink,
    Entry.removeRelatedLink, Entry.addTag, Entry.removeTag, Entry.setRating,
    hec, hs, hurl, htag.1, htag.2, hr.1, hr.2]

/-- C1 witness: a concrete entry and concrete successful operations. -/
theorem c1_single_mutation_protocol_witness :
    (({ reflection := some "Revised." } : Updates).editCount = none ∧
      jsTrim "Insight" ≠ "" ∧ jsTrim "https://example.com" ≠ "" ∧
      (jsTrim "ai" ≠ "" ∧ jsToLower (jsTrim "ai") ∉ sampleEntry.tags) ∧
      (1 ≤ (4 : Int) ∧ (4 : Int) ≤ 5)) ∧
    ((sampleEntry.update { reflection := some "Revised." } "T1").lastEdited = some "T1" ∧
      (sampleEntry.update { reflection := some "Revised." } "T1").editCount =
        sampleEntry.editCount + 1) ∧
    ((sampleEntry.addTag "ai" "T1").lastEdited = some "T1" ∧
      (sampleEntry.addTag "ai" "T1").editCount = sampleEntry.editCount) :=
  ⟨by decide,
   (c1_single_mutation_protocol sampleEntry { reflection := some "Revised." }
      "Insight" "https://example.com" "" "ai" 4 7 8 2000 "T1"
      (by decide) (by decide) (by decide) (by decide) (by decide)).1,
   (c1_single_mutation_protocol sampleEntry { reflection := some "Revised." }
      "Insight" "https://example.com" "" "ai" 4 7 8 2000 "T1"
      (by decide) (by decide) (by decide) (by decide) (by decide)).2.2.2.2.2.1⟩

/-- C1 counterexample: `addTag` succeeds (the tag is added) yet leaves
`editCount` unchanged at 0 instead of incrementing it by 1, refuting the
claimed eight-operation increment protocol. -/
theorem c1_counterexample :
    (sampleEntry.addTag "focus" "T1").tags = ["focus"] ∧
    (sampleEntry.addTag "focus" "T1").editCount = 0 ∧
    ¬ (sampleEntry.addTag "focus" "T1").editCount = sampleEntry.editCount + 1 := by
  decide

/-- C2: for a stored entry id, `DataService.updateEntry` leaves the
partially mutated entry in the in-memory collection whether or not the
re-validation succeeds (no rollback), and its success flag, persistence,
`entry_updated` notification and error message all follow the validation
verdict of the mutated entry: persistence and notification happen only on
success, and on failure a failure result is returned. -/
theorem c2_update_no_rollback (entries : List Entry) (id : Nat) (u : Updates)
    (now : String) (e : Entry)
    (hfind : entries.find? (fun x => x.id == id) = some e) :
    (DataService.updateEntry entries id u now).entries =
      updateFirst entries id (fun x => x.update u now) ∧
    (DataService.updateEntry entries id u now).success = (e.update u now).validate.isValid ∧
    (DataService.updateEntry entries id u now).persisted = (e.update u now).validate.isValid ∧
    (DataService.updateEntry entries id u now).events =
      (if (e.update u now).validate.isValid then ["entry_updated"] else []) ∧
    (DataService.updateEntry entries id u now).error =
      (if (e.update u now).validate.isValid then none
       else some (String.intercalate ", " (e.update u now).validate.errors)) := by
  unfold DataService.updateEntry
  rw [hfind]
  by_cases h : (e.update u now).validate.isValid <;> simp [h]

/-- C2 witness: blanking `sourceName` makes re-validation fail; the
mutated entry stays in memory, nothing is persisted, no event fires. -/
theorem c2_update_no_rollback_witness :
    ([sampleEntry].find? (fun x => x.id == 1000) = some sampleEntry) ∧
    (DataService.updateEntry [sampleEntry] 1000 { sourceName := some "" } "T1").entries =
      updateFirst [sampleEntry] 1000 (fun x => x.update { sourceName := some "" } "T1") ∧
    (DataService.updateEntry [sampleEntry] 1000 { sourceName := some "" } "T1").persisted =
      false ∧
    (DataService.updateEntry [sampleEntry] 1000 { sourceName := some "" } "T1").events = [] :=
  ⟨by decide,
   (c2_update_no_rollback [sampleEntry] 1000 { sourceName := some "" } "T1" sampleEntry
      (by decide)).1,
   by
     have h := (c2_update_no_rollback [sampleEntry] 1000 { sourceName := some "" } "T1"
       sampleEntry (by decide)).2.2.1
     rw [h]
     decide,
   by
     have h := (c2_update_no_rollback [sampleEntry] 1000 { sourceName := some "" } "T1"
       sampleEntry (by decide)).2.2.2.1
     rw [h]
     decide⟩

/-- C3 (amended): a factory-created entry satisfies the rating invariant
(rating absent or within [1,5]), and every sequence of `Entry` operations
preserves it provided no `update` in the sequence carries a `rating` key:
`setRating` checks its own range, and all other operations leave the
rating untouched.  `Entry.update` with a `rating` key assigns it
unchecked, so sequences containing such an update can break the
invariant. -/
theorem c3_rating_invariant (fd : FormData) (nowMs : Nat) (nowIso : String)
    (e : Entry) (ops : List EOp)
    (h0 : ratingOk e = true)
    (hsafe : ∀ op ∈ ops, ratingSafe op = true) :
    ratingOk (Entry.create fd nowMs nowIso) = true ∧
    ratingOk (ops.foldl Entry.applyOp e) = true := by
  constructor
  · rfl
  · induction ops generalizing e with
    | nil => exact h0
    | cons op rest ih =>
        simp only [List.foldl_cons]
        exact ih (e.applyOp op) (ratingOk_applyOp e op h0 (hsafe op (by simp)))
          (fun o ho => hsafe o (by simp [ho]))

/-- C3 witness: a concrete rating-safe operation sequence keeps the
invariant. -/
theorem c3_rating_invariant_witness :
    ratingOk sampleEntry = true ∧
    (∀ op ∈ ([.addTag "ai" "T1", .setRating 4 "T2",
        .update { reflection := some "Revised." } "T3"] : List EOp), ratingSafe op = true) ∧
    ratingOk (([.addTag "ai" "T1", .setRating 4 "T2",
        .update { reflection := some "Revised." } "T3"] : List EOp).foldl
        Entry.applyOp sampleEntry) = true :=
  ⟨by decide, by decide,
   (c3_rating_invariant sampleForm 1000 "T0" sampleEntry
      [.addTag "ai" "T1", .setRating 4 "T2", .update { reflection := some "Revised." } "T3"]
      (by decide) (by decide)).2⟩

/-- C3 counterexample: the reachable state obtained by `create` followed
by `update` with a `rating` key of 99 violates the [1,5] invariant — the
claim quantifies over updates with arbitrary partial fields, and `update`
does not enforce the rating bound. -/
theorem c3_counterexample :
    ratingOk ((Entry.create sampleForm 1000 "T0").update
      { rating := some (some 99) } "T1") = false := by
  decide

/-- C4 (amended): serialize-then-deserialize (`toObject` then the
constructor) is the identity on every entry whose `id` is nonzero, whose
`timestamp` and `dateFormatted` are nonempty, whose `lastEdited` (when
present) is nonempty, and whose `rating` (when present) is nonzero — the
constructor's `||`-defaulting collapses exactly those falsy values.
Factory-created entries and all entries reachable from them without
passing falsy values through `update` satisfy these conditions. -/
theorem c4_roundtrip (e : Entry) (nowMs : Nat) (nowIso : String)
    (h1 : e.id ≠ 0) (h2 : e.timestamp ≠ "") (h3 : e.dateFormatted ≠ "")
    (h4 : e.lastEdited ≠ some "") (h5 : e.rating ≠ some 0) :
    entryFromData e.toObject nowMs nowIso = e := by
  obtain ⟨id, st, sn, au, rf, ts, le, df, ec, an, kt, rl, tg, ra, pg⟩ := e
  simp only at h1 h2 h3 h4 h5
  cases le with
  | none =>
      cases ra with
      | none => simp [entryFromData, Entry.toObject, h1, h2, h3]
      | some r =>
          have hr : r ≠ 0 := by simpa using h5
          simp [entryFromData, Entry.toObject, h1, h2, h3, hr]
  | some s =>
      have hs : s ≠ "" := by simpa using h4
      cases ra with
      | none => simp [entryFromData, Entry.toObject, h1, h2, h3, hs]
      | some r =>
          have hr : r ≠ 0 := by simpa using h5
          simp [entryFromData, Entry.toObject, h1, h2, h3, hs, hr]

/-- C4 witness: the round trip is the identity on a concrete well-formed
entry with populated nested sequences. -/
theorem c4_roundtrip_witness :
    (((sampleEntry.addTag "ai" "T1").addTakeaway "Focus deeply" 2000 "T2").id ≠ 0 ∧
      ((sampleEntry.addTag "ai" "T1").addTakeaway "Focus deeply" 2000 "T2").timestamp ≠ "" ∧
      ((sampleEntry.addTag "ai" "T1").addTakeaway "Focus deeply" 2000 "T2").dateFormatted ≠ "" ∧
      ((sampleEntry.addTag "ai" "T1").addTakeaway "Focus deeply" 2000 "T2").lastEdited ≠
        some "" ∧
      ((sampleEntry.addTag "ai" "T1").addTakeaway "Focus deeply" 2000 "T2").rating ≠ some 0) ∧
    entryFromData
        ((sampleEntry.addTag "ai" "T1").addTakeaway "Focus deeply" 2000 "T2").toObject
        3000 "T9" =
      (sampleEntry.addTag "ai" "T1").addTakeaway "Focus deeply" 2000 "T2" :=
  ⟨by decide,
   c4_roundtrip ((sampleEntry.addTag "ai" "T1").addTakeaway "Focus deeply" 2000 "T2")
     3000 "T9" (by decide) (by decide) (by decide) (by decide) (by decide)⟩

/-- C4 counterexample: an entry whose rating was set to 0 through
`update` (a reachable state) does not survive the round trip — the
constructor's `data.rating || null` turns rating 0 into absent, so the
claim does not hold for every entry. -/
theorem c4_counterexample :
    ((Entry.create sampleForm 1000 "T0").update { rating := some (some 0) } "T1").rating =
      some 0 ∧
    entryFromData ((Entry.create sampleForm 1000 "T0").update
        { rating := some (some 0) } "T1").toObject 2000 "T2" ≠
      (Entry.create sampleForm 1000 "T0").update { rating := some (some 0) } "T1" := by
  decide

/-- C5 (amended): for every update whose partial object does not carry an
`editCount` key, `Entry.update` increments `editCount` by exactly 1 and
sets `lastEdited` to the current call time (hence to a time at least its
previous value whenever call times are nondecreasing), and it never
changes `id` or `timestamp`, whatever keys the partial object carries. -/
theorem c5_update_contract (e : Entry) (u : Updates) (now : String)
    (hec : u.editCount = none) :
    (e.update u now).editCount = e.editCount + 1 ∧
    (e.update u now).lastEdited = some now ∧
    (e.update u now).id = e.id ∧
    (e.update u now).timestamp = e.timestamp := by
  simp [Entry.update, hec]

/-- C5 witness: a concrete no-change update (and even an attempt to write
`id` and `timestamp`) obeys the contract. -/
theorem c5_update_contract_witness :
    (({ id := some 999, timestamp := some "T8" } : Updates).editCount = none) ∧
    (sampleEntry.update { id := some 999, timestamp := some "T8" } "T1").editCount =
      sampleEntry.editCount + 1 ∧
    (sampleEntry.update { id := some 999, timestamp := some "T8" } "T1").lastEdited =
      some "T1" ∧
    (sampleEntry.update { id := some 999, timestamp := some "T8" } "T1").id = sampleEntry.id ∧
    (sampleEntry.update { id := some 999, timestamp := some "T8" } "T1").timestamp =
      sampleEntry.timestamp :=
  ⟨by decide,
   (c5_update_contract sampleEntry { id := some 999, timestamp := some "T8" } "T1"
      (by decide)).1,
   (c5_update_contract sampleEntry { id := some 999, timestamp := some "T8" } "T1"
      (by decide)).2.1,
   (c5_update_contract sampleEntry { id := some 999, timestamp := some "T8" } "T1"
      (by decide)).2.2.1,
   (c5_update_contract sampleEntry { id := some 999, timestamp := some "T8" } "T1"
      (by decide)).2.2.2⟩

/-- C5 counterexample: an update whose partial object carries an
`editCount` key first overwrites the counter and then increments, so the
counter jumps from 0 to 101 — not an increase of exactly 1. -/
theorem c5_counterexample :
    sampleEntry.editCount = 0 ∧
    (sampleEntry.update { editCount := some 100 } "T1").editCount = 101 ∧
    ¬ (sampleEntry.update { editCount := some 100 } "T1").editCount =
      sampleEntry.editCount + 1 := by
  decide

/-- C6 (amended): when the store is available, the primary slot holds a
nonempty unparseable value and the backup slot holds a valid backup
wrapping an entry array, `getEntries` returns the collection recovered
from the backup; it returns the empty collection when the store is
unavailable, when the primary key is absent, or when the backup is
missing.  (When the primary slot holds the empty string — also not valid
JSON — the falsy-data check returns empty without consulting the
backup, which is why "nonempty" is required.) -/
theorem c6_backup_recovery (st : Store) (s ts : String) (es : List EntryObj)
    (hav : st.available = true)
    (hp : st.primary = some (.corrupt s)) (hs : s ≠ "")
    (hb : st.backup = some (.backupObj (.arr es) ts)) :
    StorageService.getEntries st = .arr es ∧
    (∀ st2 : Store, st2.available = false → StorageService.getEntries st2 = .arr []) ∧
    (∀ st3 : Store, st3.primary = none → StorageService.getEntries st3 = .arr []) ∧
    (∀ st4 : Store, st4.available = true → st4.primary = some (.corrupt s) →
      st4.backup = none → StorageService.getEntries st4 = .arr []) := by
  refine ⟨?_, ?_, ?_, ?_⟩
  · simp [StorageService.getEntries, StorageService.restoreFromBackup, hav, hp, hb,
      storedTruthy, tryParse, hs]
  · intro st2 h2
    simp [StorageService.getEntries, h2]
  · intro st3 h3
    cases hav3 : st3.available <;>
      simp [StorageService.getEntries, h3, hav3]
  · intro st4 h4a h4p h4b
    simp [StorageService.getEntries, StorageService.restoreFromBackup, h4a, h4p, h4b,
      storedTruthy, tryParse, hs]

/-- A store whose primary slot holds a corrupt nonempty string and whose
backup slot holds a valid backup of a one-entry collection. -/
def corruptPrimaryStore : Store :=
  { available := true
    primary := some (.corrupt "this is not json")
    backup := some (.backupObj (.arr [sampleEntry.toObject]) "TB") }

/-- The same store but with the empty string in the primary slot. -/
def emptyPrimaryStore : Store :=
  { available := true
    primary := some (.corrupt "")
    backup := some (.backupObj (.arr [sampleEntry.toObject]) "TB") }

/-- C6 witness: a concrete store with a corrupt nonempty primary value
and a valid one-entry backup reads back the backup contents. -/
theorem c6_backup_recovery_witness :
    (corruptPrimaryStore.available = true ∧
      corruptPrimaryStore.primary = some (.corrupt "this is not json") ∧
      ("this is not json" : String) ≠ "" ∧
      corruptPrimaryStore.backup = some (.backupObj (.arr [sampleEntry.toObject]) "TB")) ∧
    StorageService.getEntries corruptPrimaryStore = .arr [sampleEntry.toObject] :=
  ⟨⟨by decide, by decide, by decide, by decide⟩,
   (c6_backup_recovery corruptPrimaryStore "this is not json" "TB" [sampleEntry.toObject]
      (by decide) (by decide) (by decide) (by decide)).1⟩

/-- C6 counterexample: with the primary slot holding the empty string —
a stored value that JSON parsing rejects — and a valid nonempty backup
present, `getEntries` returns the empty collection without attempting
backup recovery (the falsy-data check of `data ? JSON.parse(data) : []`
short-circuits on the empty string), so the claim fails for that
unparseable value. -/
theorem c6_counterexample :
    StorageService.getEntries emptyPrimaryStore = .arr [] ∧
    StorageService.restoreFromBackup emptyPrimaryStore = .arr [sampleEntry.toObject] ∧
    StoredVal.arr ([] : List EntryObj) ≠ .arr [sampleEntry.toObject] := by
  decide

/-- C7: adding "AI" then "ai" to an entry whose tags lack "ai" appends
exactly one tag, the lowercase "ai"; and starting from tags that are
lowercase and duplicate-free (the documented storage format), any
sequence of `addTag` calls leaves the tag sequence without two entries
equal up to case. -/
theorem c7_tag_dedup (e : Entry) (n1 n2 : String) (calls : List (String × String))
    (hai : "ai" ∉ e.tags)
    (hlow : ∀ x ∈ e.tags, jsToLower x = x) (hnd : e.tags.Nodup) :
    ((e.addTag "AI" n1).addTag "ai" n2).tags = e.tags ++ ["ai"] ∧
    List.Pairwise (fun a b => jsToLower a ≠ jsToLower b)
      ((calls.foldl (fun acc p => acc.addTag p.1 p.2) e).tags) := by
  constructor
  · have h1 : jsTrim "AI" = "AI" := by decide
    have h2 : jsToLower "AI" = "ai" := by decide
    have h3 : jsTrim "ai" = "ai" := by decide
    have h4 : jsToLower "ai" = "ai" := by decide
    have step1 : (e.addTag "AI" n1).tags = e.tags ++ ["ai"] := by
      unfold Entry.addTag
      rw [if_pos]
      · rw [h1, h2]
      · rw [h1, h2]
        exact ⟨by decide, hai⟩
    have key : ∀ e2 : Entry, e2.tags = e.tags ++ ["ai"] →
        (e2.addTag "ai" n2).tags = e.tags ++ ["ai"] := by
      intro e2 he2
      unfold Entry.addTag
      rw [h3, h4, he2]
      rw [if_neg]
      · exact he2
      · intro hcon
        exact hcon.2 (by simp)
    exact key (e.addTag "AI" n1) step1
  · have inv := tagsInv_foldl e calls hlow hnd
    refine List.Pairwise.imp_of_mem ?_ inv.2
    intro a b ha hb hne hEq
    exact hne ((inv.1 a ha).symm.trans (hEq.trans (inv.1 b hb)))

/-- C7 witness: the AI/ai pair on a fresh entry yields one tag, and a
concrete mixed-case call sequence leaves no case-duplicates. -/
theorem c7_tag_dedup_witness :
    ("ai" ∉ sampleEntry.tags ∧ (∀ x ∈ sampleEntry.tags, jsToLower x = x) ∧
      sampleEntry.tags.Nodup) ∧
    ((sampleEntry.addTag "AI" "T1").addTag "ai" "T2").tags = sampleEntry.tags ++ ["ai"] ∧
    List.Pairwise (fun a b => jsToLower a ≠ jsToLower b)
      (([("AI", "T3"), ("ai", "T4"), ("Focus", "T5")].foldl
        (fun acc p => acc.addTag p.1 p.2) sampleEntry).tags) :=
  ⟨⟨by decide, by decide, by decide⟩,
   c7_tag_dedup sampleEntry "T1" "T2" [("AI", "T3"), ("ai", "T4"), ("Focus", "T5")]
     (by decide) (by decide) (by decide)⟩

/-- C8 (amended): the export-document construction is deterministic in
its two inputs, the entry collection and the invocation time: the
entries component and every metadata field except `exportDate` depend
only on the collection, and two documents built from the same collection
differ at most in `exportDate` (which is the invocation time, so two
invocations at different times do not produce identical metadata). -/
theorem c8_export_deterministic (es : List Entry) (t1 t2 : String) :
    (buildExportJSON es t1).entries = (buildExportJSON es t2).entries ∧
    (buildExportJSON es t1).metadata.totalEntries =
      (buildExportJSON es t2).metadata.totalEntries ∧
    (buildExportJSON es t1).metadata.version = (buildExportJSON es t2).metadata.version ∧
    (buildExportJSON es t1).metadata.appName = (buildExportJSON es t2).metadata.appName ∧
    buildExportJSON es t1 =
      { buildExportJSON es t2 with
          metadata := { (buildExportJSON es t2).metadata with exportDate := t1 } } := by
  simp [buildExportJSON]

/-- C8 counterexample: two invocations on the same one-entry collection
at different times produce different export documents (the metadata
`exportDate` is the invocation time), refuting "identical documents,
same metadata". -/
theorem c8_counterexample :
    buildExportJSON [sampleEntry] "2024-01-01T00:00:00.000Z" ≠
    buildExportJSON [sampleEntry] "2024-01-02T00:00:00.000Z" := by
  decide

/-- C9: `Entry.create` reads only `sourceType`, `sourceName`, `author`
and `reflection` from its input — two inputs agreeing on those four
fields (whatever `metadata` they carry) create the same entry — and the
created entry starts with empty `keyTakeaways`, `relatedLinks` and
`tags`, no rating, `editCount` 0 and no `lastEdited`; the `Entry` record
has no metadata field at all. -/
theorem c9_create_whitelist (fd1 fd2 : FormData) (nowMs : Nat) (nowIso : String)
    (h1 : fd1.sourceType = fd2.sourceType) (h2 : fd1.sourceName = fd2.sourceName)
    (h3 : fd1.author = fd2.author) (h4 : fd1.reflection = fd2.reflection) :
    Entry.create fd1 nowMs nowIso = Entry.create fd2 nowMs nowIso ∧
    (Entry.create fd1 nowMs nowIso).keyTakeaways = [] ∧
    (Entry.create fd1 nowMs nowIso).relatedLinks = [] ∧
    (Entry.create fd1 nowMs nowIso).tags = [] ∧
    (Entry.create fd1 nowMs nowIso).rating = none ∧
    (Entry.create fd1 nowMs nowIso).editCount = 0 ∧
    (Entry.create fd1 nowMs nowIso).lastEdited = none := by
  simp [Entry.create, h1, h2, h3, h4]

/-- C9 witness: a form input carrying a metadata object (as the UI form
reader always produces) creates the same entry as one without it. -/
theorem c9_create_whitelist_witness :
    (({ sampleForm with metadata := some { url := "https://example.com" } } : FormData).sourceType
        = sampleForm.sourceType ∧
      ({ sampleForm with metadata := some { url := "https://example.com" } } : FormData).sourceName
        = sampleForm.sourceName ∧
      ({ sampleForm with metadata := some { url := "https://example.com" } } : FormData).author
        = sampleForm.author ∧
      ({ sampleForm with metadata := some { url := "https://example.com" } } : FormData).reflection
        = sampleForm.reflection) ∧
    Entry.create { sampleForm with metadata := some { url := "https://example.com" } }
        1000 "T0" =
      Entry.create sampleForm 1000 "T0" ∧
    (Entry.create { sampleForm with metadata := some { url := "https://example.com" } }
        1000 "T0").tags = [] :=
  ⟨by decide,
   (c9_create_whitelist { sampleForm with metadata := some { url := "https://example.com" } }
      sampleForm 1000 "T0" (by decide) (by decide) (by decide) (by decide)).1,
   (c9_create_whitelist { sampleForm with metadata := some { url := "https://example.com" } }
      sampleForm 1000 "T0" (by decide) (by decide) (by decide) (by decide)).2.2.2.1⟩

/-- C10: removing an absent tag, takeaway id or link id changes nothing
except `lastEdited`, which is still set to the current time — the
resulting entry equals the original with only `lastEdited` replaced. -/
theorem c10_noop_removals (e : Entry) (tag : String) (i j : Nat) (now : String)
    (h1 : tag ∉ e.tags)
    (h2 : i ∉ e.keyTakeaways.map Takeaway.id)
    (h3 : j ∉ e.relatedLinks.map RelatedLink.id) :
    e.removeTag tag now = { e with lastEdited := some now } ∧
    e.removeTakeaway i now = { e with lastEdited := some now } ∧
    e.removeRelatedLink j now = { e with lastEdited := some now } := by
  refine ⟨?_, ?_, ?_⟩
  · unfold Entry.removeTag
    have : e.tags.filter (fun t => t != tag) = e.tags := by
      apply List.filter_eq_self.mpr
      intro a ha
      simp only [bne_iff_ne, ne_eq, decide_eq_true_eq]
      exact fun hEq => h1 (hEq ▸ ha)
    rw [this]
  · unfold Entry.removeTakeaway
    have : e.keyTakeaways.filter (fun t => t.id != i) = e.keyTakeaways := by
      apply List.filter_eq_self.mpr
      intro a ha
      simp only [bne_iff_ne, ne_eq, decide_eq_true_eq]
      intro hEq
      exact h2 (hEq ▸ List.mem_map_of_mem Takeaway.id ha)
    rw [this]
  · unfold Entry.removeRelatedLink
    have : e.relatedLinks.filter (fun l => l.id != j) = e.relatedLinks := by
      apply List.filter_eq_self.mpr
      intro a ha
      simp only [bne_iff_ne, ne_eq, decide_eq_true_eq]
      intro hEq
      exact h3 (hEq ▸ List.mem_map_of_mem RelatedLink.id ha)
    rw [this]

/-- C10 witness: a concrete entry with one tag, one takeaway and one
link; removing absent identifiers only touches `lastEdited`. -/
theorem c10_noop_removals_witness :
    ("missing" ∉ (sampleEntry.addTag "ai" "T1").tags ∧
      42 ∉ (sampleEntry.addTag "ai" "T1").keyTakeaways.map Takeaway.id ∧
      43 ∉ (sampleEntry.addTag "ai" "T1").relatedLinks.map RelatedLink.id) ∧
    (sampleEntry.addTag "ai" "T1").removeTag "missing" "T2" =
      { sampleEntry.addTag "ai" "T1" with lastEdited := some "T2" } ∧
    (sampleEntry.addTag "ai" "T1").removeTakeaway 42 "T2" =
      { sampleEntry.addTag "ai" "T1" with lastEdited := some "T2" } ∧
    (sampleEntry.addTag "ai" "T1").removeRelatedLink 43 "T2" =
      { sampleEntry.addTag "ai" "T1" with lastEdited := some "T2" } :=
  ⟨⟨by decide, by decide, by decide⟩,
   (c10_noop_removals (sampleEntry.addTag "ai" "T1") "missing" 42 43 "T2"
      (by decide) (by decide) (by decide)).1,
   (c10_noop_removals (sampleEntry.addTag "ai" "T1") "missing" 42 43 "T2"
      (by decide) (by decide) (by decide)).2.1,
   (c10_noop_removals (sampleEntry.addTag "ai" "T1") "missing" 42 43 "T2"
      (by decide) (by decide) (by decide)).2.2⟩
